import Mathlib

/-!
Shallow embedding of the GoTo SMS webhook manager (src/unnamed/part_000,
`src/app.js`): JS values, the template renderer (`formatMessage`), phone-number
parsing (`parsePhoneNumbers`), the token cache (`getAccessToken`), the SMS
dispatcher (`sendSMS`), the configuration store (active/archived webhook maps
with create/update/archive/restore/import), the changelog recorder
(`addToChangelog`, both the v3 `part_000` and v2 `app.js` variants), and the
`POST /sms-whook/:type` handler.

Conventions: JavaScript strings are `String` / `List Char`; JS property bags
are association lists `List (String × JSVal)` (reads on missing keys give
`JSVal.undef`) or, for the store maps, functions `String → Option
NotificationConfig`; times are integer milliseconds as in `Date.now()`;
network effects (token exchange, provider call) are passed in as explicit
response values, and the number of token-exchange calls performed is returned
alongside each result.
-/

namespace GotoSms

/-- JS primitive values as they occur in JSON webhook payloads; `undef` is
JavaScript `undefined` (the result of reading an absent property). -/
inductive JSVal where
  | undef
  | null
  | str (s : String)
  | num (n : Int)
  | bool (b : Bool)
deriving DecidableEq, Repr

/-- JS truthiness test: `undefined`, `null`, `""`, `0` and `false` are falsy. -/
def isFalsy : JSVal → Bool
  | JSVal.undef => true
  | .null => true
  | .str s => s == ""
  | .num n => n == 0
  | .bool b => !b

/-- JS `a || b`. -/
def jsOr (a b : JSVal) : JSVal :=
  if isFalsy a then b else a

/-- JS `String(v)` coercion, as applied by `String.prototype.replace` to a
non-string replacement value. -/
def jsToString : JSVal → String
  | JSVal.undef => "undefined"
  | .null => "null"
  | .str s => s
  | .num n => toString n
  | .bool b => if b then "true" else "false"

/-- Lookup in a JS object modelled as an association list (first key wins). -/
def lookupA (l : List (String × JSVal)) (k : String) : Option JSVal :=
  (l.find? (fun p => p.1 == k)).map Prod.snd

/-- JS property read `obj[k]`: `undefined` when the key is absent. -/
def getProp (l : List (String × JSVal)) (k : String) : JSVal :=
  (lookupA l k).getD JSVal.undef

/-- JS `String.prototype.replace` with a plain-string pattern: replaces only
the first occurrence of `pat`, and returns the input unchanged when `pat`
does not occur. (Replacement strings with `$`-patterns are not modelled; no
replacement used below contains `$`.) -/
def replaceFirst (pat rep : List Char) : List Char → List Char
  | [] => if pat.isEmpty then rep else []
  | c :: rest =>
    if pat.isPrefixOf (c :: rest) then rep ++ (c :: rest).drop pat.length
    else c :: replaceFirst pat rep rest

/-- JS `str.split(',')` on a character list: `"" ↦ [""]`. -/
def splitComma : List Char → List (List Char)
  | [] => [[]]
  | c :: rest =>
    match splitComma rest with
    | [] => [[]]
    | g :: gs => if c = ',' then [] :: g :: gs else (c :: g) :: gs

/-- ASCII whitespace, the fragment of JS `trim`'s whitespace class exercised
by this program. -/
def isWS (c : Char) : Bool :=
  c == ' ' || c == '\t' || c == '\n' || c == '\r'

/-- JS `str.trim()`: drop leading and trailing whitespace. -/
def trimChars (s : List Char) : List Char :=
  ((s.dropWhile isWS).reverse.dropWhile isWS).reverse

/-- The source's `parsePhoneNumbers`: `[]` on a falsy (empty) string, else
split on commas, trim each piece, drop empty pieces. -/
def parsePhoneNumbers (phoneString : String) : List (List Char) :=
  if phoneString == "" then []
  else ((splitComma phoneString.data).map trimChars).filter (fun num => !num.isEmpty)

/-- The source's `formatMessage(template, data)`. `data` is the event-data
object (a property bag); `timeStr`/`dateStr` stand for the renderer's
invocation-time `new Date().toLocaleTimeString()` / `toLocaleDateString()`
clock readings. Each substitution replaces only the first occurrence of its
token, in the source's fixed order. -/
def formatMessage (template : List Char) (data : String → JSVal)
    (timeStr dateStr : String) : List Char :=
  let m := template
  let m := replaceFirst "{callerNumber}".data
    (jsToString (jsOr (data "callerNumber") (.str "Unknown"))).data m
  let m := replaceFirst "{callerName}".data
    (jsToString (jsOr (data "callerName")
      (jsOr (data "callerNumber") (.str "Unknown")))).data m
  let m := replaceFirst "{extension}".data
    (jsToString (jsOr (data "extension")
      (jsOr (data "extensionNumber") (.str "N/A")))).data m
  let m := replaceFirst "{time}".data timeStr.data m
  let m := replaceFirst "{date}".data dateStr.data m
  let m := replaceFirst "{customMessage}".data
    (jsToString (jsOr (data "customMessage") (.str "Notification"))).data m
  let m := replaceFirst "{queueName}".data
    (jsToString (jsOr (data "queueName") (.str "N/A"))).data m
  let m := replaceFirst "{waitTime}".data
    (jsToString (jsOr (data "waitTime") (.str "N/A"))).data m
  m

/-- Event-data construction in the `POST /sms-whook/:type` handler: the object
literal `\x7b callerNumber: body.callerNumber || body.caller || body.from, ...,
...body \x7d`. The spread of the raw body comes last, so for every key present
in the body the body's value wins; the alias chains are visible only for keys
the body does not contain. `queryMessage` is `req.query.message`. -/
def buildEventData (body : List (String × JSVal)) (queryMessage : JSVal) :
    String → JSVal :=
  fun k =>
    match lookupA body k with
    | some v => v
    | none =>
      if k = "callerNumber" then
        jsOr (getProp body "callerNumber") (jsOr (getProp body "caller") (getProp body "from"))
      else if k = "callerName" then
        jsOr (getProp body "callerName") (getProp body "name")
      else if k = "extension" then
        jsOr (getProp body "extension") (jsOr (getProp body "extensionNumber") (getProp body "to"))
      else if k = "customMessage" then
        jsOr (getProp body "message") queryMessage
      else if k = "queueName" then getProp body "queueName"
      else if k = "waitTime" then getProp body "waitTime"
      else JSVal.undef

/-- State of the module-level token cache: `let accessToken = null` /
`let tokenExpiry = null`. `tokenExpiry` is in milliseconds (`Date.now()`). -/
structure TokenState where
  accessToken : Option String
  tokenExpiry : Option Int
deriving DecidableEq, Repr

/-- Body of a successful token-exchange response: `access_token` and
`expires_in` (seconds) as the issuer returned them, either possibly absent. -/
structure TokenResponse where
  access_token : Option String
  expires_in : Option Int
deriving DecidableEq, Repr

/-- JS truthiness of the cached `accessToken` value (`null`/absent and `""`
are falsy). -/
def optTruthyStr : Option String → Bool
  | none => false
  | some s => s != ""

/-- The guard `accessToken && tokenExpiry && new Date() < tokenExpiry`. -/
def cacheValid (st : TokenState) (now : Int) : Bool :=
  optTruthyStr st.accessToken &&
    (match st.tokenExpiry with
     | some e => decide (now < e)
     | none => false)

/-- JS `x || d` on an optional number (`0` is falsy), as in
`response.data.expires_in || 3600`. -/
def jsNumOr (o : Option Int) (d : Int) : Int :=
  match o with
  | some v => if v = 0 then d else v
  | none => d

/-- Result of one `getAccessToken()` call: the returned value (`error` when
the exchange request failed and the thrown error propagates), the cache state
after the call, and how many exchange requests were issued (0 or 1). -/
structure TokenFetch where
  result : Except Unit (Option String)
  state : TokenState
  exchanges : Nat
deriving Repr

/-- The source's `getAccessToken()`. `now` is `Date.now()` in milliseconds;
`resp` is what the token endpoint would answer (`none` = the request fails).
On a cache hit nothing is contacted; otherwise one exchange happens, the
cache is overwritten on success and left untouched on failure, and expiry is
set to `now + (expiresIn - 300) * 1000` with `expiresIn = expires_in || 3600`. -/
def getAccessToken (st : TokenState) (now : Int) (resp : Option TokenResponse) :
    TokenFetch :=
  if cacheValid st now then ⟨.ok st.accessToken, st, 0⟩
  else
    match resp with
    | none => ⟨.error (), st, 1⟩
    | some r =>
      let expiresIn := jsNumOr r.expires_in 3600
      ⟨.ok r.access_token, ⟨r.access_token, some (now + (expiresIn - 300) * 1000)⟩, 1⟩

/-- How a `sendSMS` call ends: the token exchange threw, the parsed recipient
list was empty (`throw new Error('No valid recipient phone numbers')`), the
provider call threw, or the message was sent. -/
inductive SendOutcome where
  | tokenError
  | noRecipients
  | providerError
  | sent
deriving DecidableEq, Repr

/-- Result of one `sendSMS` call: outcome, token-cache state afterwards,
exchange requests issued, and whether the provider send call was attempted. -/
structure SendResult where
  outcome : SendOutcome
  token : TokenState
  exchanges : Nat
  sendAttempted : Bool
deriving DecidableEq, Repr

/-- The source's `sendSMS(message, recipients)`: it first awaits
`getAccessToken()`, then parses the recipients and throws if the list is
empty, then issues the provider call (`providerOk` says whether that call
succeeds). -/
def sendSMS (message : List Char) (recipients : String) (st : TokenState)
    (now : Int) (resp : Option TokenResponse) (providerOk : Bool) : SendResult :=
  let tf := getAccessToken st now resp
  match tf.result with
  | .error _ => ⟨.tokenError, tf.state, tf.exchanges, false⟩
  | .ok _ =>
    let phoneNumbers := parsePhoneNumbers recipients
    if phoneNumbers.isEmpty then ⟨.noRecipients, tf.state, tf.exchanges, false⟩
    else
      let _ := message
      if providerOk then ⟨.sent, tf.state, tf.exchanges, true⟩
      else ⟨.providerError, tf.state, tf.exchanges, true⟩

/-- One notification configuration. JS configs are open objects; the fields
below are the ones the program reads or writes. `archivedAt` models the
presence or absence of the `archivedAt` property (`none` = absent). -/
structure NotificationConfig where
  recipients : String
  messageTemplate : String
  description : String
  email : String
  browserNotify : Bool
  tags : List String
  archivedAt : Option String
deriving DecidableEq, Repr

/-- Partial config sent to `PUT /api/webhooks/:name`; `none` = the field is
absent from the request body, so the shallow merge keeps the old value. -/
structure ConfigPatch where
  recipients : Option String := none
  messageTemplate : Option String := none
  description : Option String := none
  email : Option String := none
  browserNotify : Option Bool := none
  tags : Option (List String) := none
  archivedAt : Option (Option String) := none
deriving Repr

/-- Shallow merge `\x7b ...old, ...patch \x7d` of a patch over a config. -/
def mergePatch (c : NotificationConfig) (p : ConfigPatch) : NotificationConfig :=
  { recipients := p.recipients.getD c.recipients
    messageTemplate := p.messageTemplate.getD c.messageTemplate
    description := p.description.getD c.description
    email := p.email.getD c.email
    browserNotify := p.browserNotify.getD c.browserNotify
    tags := p.tags.getD c.tags
    archivedAt := p.archivedAt.getD c.archivedAt }

/-- The configuration store: the module-level maps `notificationConfigs`
(active) and `archivedWebhooks`, as name-indexed lookup functions. -/
structure Store where
  active : String → Option NotificationConfig
  archived : String → Option NotificationConfig

/-- `POST /api/webhooks` body `\x7bname, config\x7d`: unconditional
`notificationConfigs[name] = config` — the archived map is not consulted. -/
def createWebhook (n : String) (c : NotificationConfig) (s : Store) : Store :=
  { s with active := fun k => if k = n then some c else s.active k }

/-- `PUT /api/webhooks/:name`: shallow-merges the body over the existing
active entry; a miss leaves the store unchanged (the handler answers 404). -/
def updateWebhook (n : String) (p : ConfigPatch) (s : Store) : Store :=
  match s.active n with
  | none => s
  | some c =>
    { s with active := fun k => if k = n then some (mergePatch c p) else s.active k }

/-- `POST /api/webhooks/:name/archive`: copies the active entry into
`archivedWebhooks` with `archivedAt` stamped to the current time `ts`, then
deletes it from the active map; a miss leaves the store unchanged. -/
def archiveWebhook (ts : String) (n : String) (s : Store) : Store :=
  match s.active n with
  | none => s
  | some c =>
    { active := fun k => if k = n then none else s.active k
      archived := fun k =>
        if k = n then some { c with archivedAt := some ts } else s.archived k }

/-- `POST /api/webhooks/:name/restore`: copies the archived entry back into
the active map, deletes its `archivedAt` property, and removes it from the
archived map; a miss leaves the store unchanged. -/
def restoreWebhook (n : String) (s : Store) : Store :=
  match s.archived n with
  | none => s
  | some c =>
    { active := fun k => if k = n then some { c with archivedAt := none } else s.active k
      archived := fun k => if k = n then none else s.archived k }

/-- Spread-merge `\x7b ...base, ...patch \x7d` of an optional imported object
over a map (`none` patch = the request body omitted that object, no merge). -/
def mergeImport (patch : Option (String → Option NotificationConfig))
    (base : String → Option NotificationConfig) : String → Option NotificationConfig :=
  fun k =>
    match patch with
    | none => base k
    | some f =>
      match f k with
      | some v => some v
      | none => base k

/-- `POST /api/import` body `\x7bwebhooks?, archived?\x7d`: shallow-merges each
provided object over the corresponding map; neither merge consults the other
map. -/
def importData (ws arch : Option (String → Option NotificationConfig)) (s : Store) :
    Store :=
  { active := mergeImport ws s.active
    archived := mergeImport arch s.archived }

/-- One management operation on the configuration store. -/
inductive StoreOp where
  | create (n : String) (c : NotificationConfig)
  | update (n : String) (p : ConfigPatch)
  | archive (ts : String) (n : String)
  | restore (n : String)
  | dataImport (ws arch : Option (String → Option NotificationConfig))

/-- Apply one management operation. -/
def applyOp (s : Store) : StoreOp → Store
  | .create n c => createWebhook n c s
  | .update n p => updateWebhook n p s
  | .archive ts n => archiveWebhook ts n s
  | .restore n => restoreWebhook n s
  | .dataImport ws arch => importData ws arch s

/-- Run a sequence of management operations. -/
def runOps (s : Store) (ops : List StoreOp) : Store :=
  ops.foldl applyOp s

/-- The spec's invariant: no name is in both the active and the archived map. -/
def DisjointMaps (s : Store) : Prop :=
  ∀ k, s.active k = none ∨ s.archived k = none

/-- One changelog record as pushed by `addToChangelog`. -/
structure ChangelogEntry where
  timestamp : String
  action : String
  webhookName : String
  details : List (String × JSVal)
  version : String
deriving DecidableEq, Repr

/-- `APP_VERSION` of src/unnamed/part_000. -/
def APP_VERSION : String := "3.0.0"

/-- `APP_VERSION` of `src/app.js`. -/
def APP_VERSION_V2 : String := "2.0.0"

/-- Last `n` elements of a list, JS `arr.slice(-n)` for `n > 0`. -/
def lastN (n : Nat) (l : List α) : List α :=
  l.drop (l.length - n)

/-- The `addToChangelog` of src/unnamed/part_000: pushes the entry onto the
in-memory array, then `saveChangelog` persists `changelog.slice(-100)`.
Returns (in-memory sequence, persisted sequence): only the persisted copy is
truncated. `ts` is `new Date().toISOString()`. -/
def addToChangelog (log : List ChangelogEntry) (ts action webhookName : String)
    (details : List (String × JSVal)) : List ChangelogEntry × List ChangelogEntry :=
  let log2 := log ++ [⟨ts, action, webhookName, details, APP_VERSION⟩]
  (log2, lastN 100 log2)

/-- The `addToChangelog` of `src/app.js`: pushes the entry, then truncates the
in-memory array itself to the last 100 entries when it exceeds 100. -/
def addToChangelogV2 (log : List ChangelogEntry) (ts action webhookName : String)
    (details : List (String × JSVal)) : List ChangelogEntry :=
  let log2 := log ++ [⟨ts, action, webhookName, details, APP_VERSION_V2⟩]
  if 100 < log2.length then lastN 100 log2 else log2

/-- Whole relevant application state for the webhook-trigger handler. -/
structure AppState where
  store : Store
  changelog : List ChangelogEntry
  persistedChangelog : List ChangelogEntry
  token : TokenState

/-- Result of one `POST /sms-whook/:type` request: HTTP status, state after
the request, exchange requests issued, and whether a provider send call was
attempted. -/
structure WebhookResult where
  status : Nat
  state : AppState
  exchanges : Nat
  sendAttempted : Bool

/-- The `POST /sms-whook/:type` handler of src/unnamed/part_000: looks up the
config in the active map and answers 404 untouched on a miss; otherwise builds
the event data, renders the template, awaits `sendSMS`, and on success appends
a `webhook_triggered` changelog entry and answers 200; any thrown error yields
500 with the changelog untouched (the token cache keeps whatever
`getAccessToken` left in it). -/
def handleSmsWhook (s : AppState) (name : String) (body : List (String × JSVal))
    (queryMessage : JSVal) (nowIso timeStr dateStr : String) (now : Int)
    (resp : Option TokenResponse) (providerOk : Bool) : WebhookResult :=
  match s.store.active name with
  | none => ⟨404, s, 0, false⟩
  | some cfg =>
    let data := buildEventData body queryMessage
    let message := formatMessage cfg.messageTemplate.data data timeStr dateStr
    let sr := sendSMS message cfg.recipients s.token now resp providerOk
    match sr.outcome with
    | .sent =>
      let logs := addToChangelog s.changelog nowIso "webhook_triggered" name
        [("callerNumber", data "callerNumber")]
      ⟨200, { s with token := sr.token, changelog := logs.1, persistedChangelog := logs.2 },
        sr.exchanges, sr.sendAttempted⟩
    | _ => ⟨500, { s with token := sr.token }, sr.exchanges, sr.sendAttempted⟩

/-- Sample notification config used by the concrete witnesses. -/
def sampleConfig : NotificationConfig :=
  ⟨"+16158305740", "Call Alert", "General call notification", "", false, [], none⟩

/-- Store holding only the sample config, active under "general". -/
def sampleStore : Store :=
  ⟨fun k => if k = "general" then some sampleConfig else none, fun _ => none⟩

/-- The empty store (both maps empty, trivially disjoint). -/
def emptyStore : Store := ⟨fun _ => none, fun _ => none⟩

/-- Application state with no configs, no changelog and an empty token cache. -/
def emptyAppState : AppState := ⟨emptyStore, [], [], ⟨none, none⟩⟩

/-- Sample changelog entry used by the concrete counterexamples. -/
def entryT : ChangelogEntry :=
  ⟨"2025-01-01T00:00:00Z", "webhook_created", "vip", [], APP_VERSION⟩

/-- Payload with a present-but-empty callerNumber and a non-empty caller. -/
def bodyC3 : List (String × JSVal) :=
  [("callerNumber", .str ""), ("caller", .str "+15551234567")]

/-- Operation sequence that re-creates a name while its archived copy exists. -/
def opsC1 : List StoreOp :=
  [.create "vip" sampleConfig, .archive "2025-01-01T00:00:00Z" "vip",
   .create "vip" sampleConfig]

/-- Lookup through an optional imported object (`none` = object absent). -/
def lookupOpt (o : Option (String → Option NotificationConfig)) (k : String) :
    Option NotificationConfig :=
  match o with
  | some f => f k
  | none => none

theorem isPrefixOf_bridge {l₁ l₂ : List Char} :
    l₁.isPrefixOf l₂ = true ↔ l₁ <+: l₂ := List.isPrefixOf_iff_prefix

theorem infixOfHead {l₁ l₂ : List Char} (h : l₁ <+: l₂) : l₁ <:+: l₂ := by
  obtain ⟨t, ht⟩ := h
  exact ⟨[], t, by simpa using ht⟩

theorem infixOfTail {l₁ l₂ : List Char} {a : Char} (h : l₁ <:+: l₂) :
    l₁ <:+: a :: l₂ := by
  obtain ⟨s, t, hst⟩ := h
  exact ⟨a :: s, t, by simp [hst]⟩

theorem nilInfix (l : List Char) : [] <:+: l := ⟨[], l, by simp⟩

theorem replaceFirst_head {pat : List Char} (rep : List Char) {s : List Char}
    (h : pat <+: s) :
    replaceFirst pat rep s = rep ++ s.drop pat.length := by
  cases s with
  | nil =>
    have hp : pat = [] := List.prefix_nil.mp h
    subst hp
    simp [replaceFirst]
  | cons c rest =>
    have hb : pat.isPrefixOf (c :: rest) = true := isPrefixOf_bridge.mpr h
    simp [replaceFirst, hb]

theorem replaceFirst_cons_skip {pat : List Char} (rep : List Char) {c : Char}
    {rest : List Char} (h : ¬ pat <+: (c :: rest)) :
    replaceFirst pat rep (c :: rest) = c :: replaceFirst pat rep rest := by
  have hb : pat.isPrefixOf (c :: rest) = false := by
    rw [Bool.eq_false_iff]
    intro hx
    exact h (isPrefixOf_bridge.mp hx)
  simp [replaceFirst, hb]

theorem replaceFirst_absent {pat : List Char} (rep : List Char) :
    ∀ s : List Char, ¬ pat <:+: s → replaceFirst pat rep s = s := by
  intro s
  induction s with
  | nil =>
    intro h
    have hpat : pat.isEmpty = false := by
      cases pat with
      | nil => exact absurd (nilInfix []) h
      | cons a l => rfl
    simp [replaceFirst, hpat]
  | cons c rest ih =>
    intro h
    have h1 : ¬ pat <+: (c :: rest) := fun hp => h (infixOfHead hp)
    have h2 : ¬ pat <:+: rest := fun hi => h (infixOfTail hi)
    rw [replaceFirst_cons_skip rep h1, ih h2]

theorem replaceFirst_leftmost {pat : List Char} (rep : List Char) :
    ∀ (a b : List Char), (∀ i, i < a.length → ¬ pat <+: (a ++ pat ++ b).drop i) →
      replaceFirst pat rep (a ++ pat ++ b) = a ++ rep ++ b := by
  intro a
  induction a with
  | nil =>
    intro b _
    have hpre : pat <+: pat ++ b := List.prefix_append pat b
    rw [List.nil_append, replaceFirst_head rep hpre, List.drop_left]
    simp
  | cons c a' ih =>
    intro b h
    have h0 : ¬ pat <+: ((c :: a') ++ pat ++ b) := by
      have := h 0 (by simp)
      simpa using this
    have hstep : (c :: a') ++ pat ++ b = c :: (a' ++ pat ++ b) := by simp
    rw [hstep] at h0
    rw [hstep, replaceFirst_cons_skip rep h0]
    rw [ih b (fun i hi => by
      have hh := h (i + 1) (by simpa using Nat.succ_lt_succ hi)
      rw [hstep] at hh
      simpa [List.drop_succ_cons] using hh)]
    simp

theorem mergeImport_eq (o : Option (String → Option NotificationConfig))
    (base : String → Option NotificationConfig) (k : String) :
    mergeImport o base k
      = match lookupOpt o k with
        | some v => some v
        | none => base k := by
  cases o with
  | none => rfl
  | some f => cases f k <;> rfl

/-- C9: `parsePhoneNumbers` splits its input on commas, trims surrounding
whitespace from each piece, drops empty pieces and preserves order (the
result is an in-order sublist of the trimmed pieces, all nonempty); in
particular `parsePhoneNumbers " +1555,, +1666 ,"` yields `["+1555", "+1666"]`
and a falsy (empty) input yields the empty list. -/
theorem parsePhoneNumbers_spec :
    parsePhoneNumbers " +1555,, +1666 ," = ["+1555".data, "+1666".data] ∧
    parsePhoneNumbers "" = [] ∧
    (∀ s : String, (parsePhoneNumbers s).Sublist ((splitComma s.data).map trimChars)) ∧
    (∀ s : String, ∀ x ∈ parsePhoneNumbers s, x ≠ []) := by
  refine ⟨by decide, rfl, ?_, ?_⟩
  · intro s
    unfold parsePhoneNumbers
    split
    · exact List.nil_sublist _
    · exact List.filter_sublist _
  · intro s x hx
    unfold parsePhoneNumbers at hx
    split at hx
    · cases hx
    · have hf := List.of_mem_filter hx
      intro hxe
      subst hxe
      simp at hf

/-- C9 witness: a concrete element of a concrete parse is nonempty. -/
theorem parsePhoneNumbers_spec_witness : "+1555".data ≠ [] :=
  parsePhoneNumbers_spec.2.2.2 " +1555,, +1666 ," "+1555".data (by decide)

/-- C6: for a config present in the active map, `archive(name)` followed by
`restore(name)` puts back an active config equal to the pre-archive config on
every field, with the `archivedAt` field absent, and leaves the name absent
from the archived map. -/
theorem archive_restore_roundtrip (s : Store) (n ts : String)
    (c : NotificationConfig) (h : s.active n = some c) :
    (restoreWebhook n (archiveWebhook ts n s)).active n
        = some { c with archivedAt := none } ∧
    (restoreWebhook n (archiveWebhook ts n s)).archived n = none := by
  unfold archiveWebhook restoreWebhook
  rw [h]
  simp

/-- C6 witness: the round trip on the sample store restores the sample
config with `archivedAt` absent and clears the archived entry. -/
theorem archive_restore_roundtrip_witness :
    (restoreWebhook "general"
        (archiveWebhook "2026-10-11T00:00:00Z" "general" sampleStore)).active "general"
      = some { sampleConfig with archivedAt := none } ∧
    (restoreWebhook "general"
        (archiveWebhook "2026-10-11T00:00:00Z" "general" sampleStore)).archived "general"
      = none :=
  archive_restore_roundtrip sampleStore "general" "2026-10-11T00:00:00Z" sampleConfig
    (by simp [sampleStore])

/-- C5: a `getAccessToken()` call with a cached (truthy) token and
`now < expiry` returns the identical cached token with zero exchanges and an
unchanged cache, so two such calls inside the validity window perform zero
exchanges in total; a call with an invalid cache (no token, or `now ≥ expiry`)
against a response declaring a nonzero `expires_in` performs exactly one
exchange and sets the new expiry to `now + (expires_in − 300) · 1000`
milliseconds, i.e. `now` plus `expires_in − 300` seconds. -/
theorem getAccessToken_cache_spec :
    (∀ (st : TokenState) (now : Int) (resp : Option TokenResponse) (t : String) (e : Int),
      st.accessToken = some t → t ≠ "" → st.tokenExpiry = some e → now < e →
      getAccessToken st now resp = ⟨.ok (some t), st, 0⟩) ∧
    (∀ (st : TokenState) (now now2 : Int) (resp resp2 : Option TokenResponse)
      (t : String) (e : Int),
      st.accessToken = some t → t ≠ "" → st.tokenExpiry = some e → now < e → now2 < e →
      (getAccessToken st now resp).exchanges
        + (getAccessToken (getAccessToken st now resp).state now2 resp2).exchanges = 0) ∧
    (∀ (st : TokenState) (now : Int) (r : TokenResponse) (v : Int),
      cacheValid st now = false → r.expires_in = some v → v ≠ 0 →
      getAccessToken st now (some r) =
        ⟨.ok r.access_token, ⟨r.access_token, some (now + (v - 300) * 1000)⟩, 1⟩) := by
  have hit : ∀ (st : TokenState) (now : Int) (resp : Option TokenResponse)
      (t : String) (e : Int),
      st.accessToken = some t → t ≠ "" → st.tokenExpiry = some e → now < e →
      getAccessToken st now resp = ⟨.ok (some t), st, 0⟩ := by
    intro st now resp t e h1 h2 h3 h4
    have hv : cacheValid st now = true := by
      simp [cacheValid, optTruthyStr, h1, h3, h2, h4, bne_iff_ne]
    rw [getAccessToken.eq_def, if_pos hv, h1]
  refine ⟨hit, ?_, ?_⟩
  · intro st now now2 resp resp2 t e h1 h2 h3 h4 h5
    rw [hit st now resp t e h1 h2 h3 h4]
    rw [hit st now2 resp2 t e h1 h2 h3 h5]
    rfl
  · intro st now r v h1 h2 h3
    rw [getAccessToken.eq_def, if_neg (by simp [h1])]
    simp [jsNumOr, h2, h3]

/-- C5 witness: a concrete cache hit returns the cached token with zero
exchanges, and a concrete miss performs one exchange with the documented
expiry. -/
theorem getAccessToken_cache_spec_witness :
    getAccessToken ⟨some "tok", some 1000⟩ 500 none
      = ⟨.ok (some "tok"), ⟨some "tok", some 1000⟩, 0⟩ ∧
    getAccessToken ⟨none, none⟩ 0 (some ⟨some "new", some 3600⟩)
      = ⟨.ok (some "new"), ⟨some "new", some (0 + (3600 - 300) * 1000)⟩, 1⟩ :=
  ⟨getAccessToken_cache_spec.1 ⟨some "tok", some 1000⟩ 500 none "tok" 1000 rfl
      (by decide) rfl (by decide),
   getAccessToken_cache_spec.2.2 ⟨none, none⟩ 0 ⟨some "new", some 3600⟩ 3600
      (by decide) rfl (by decide)⟩

/-- C8: triggering `POST /sms-whook/:type` with a name absent from the active
config map answers 404 with the entire application state (store, changelog,
token cache) unchanged, zero token exchanges and no send attempt. -/
theorem unknown_webhook_404 (s : AppState) (name : String)
    (body : List (String × JSVal)) (q : JSVal) (nowIso timeStr dateStr : String)
    (now : Int) (resp : Option TokenResponse) (providerOk : Bool)
    (h : s.store.active name = none) :
    handleSmsWhook s name body q nowIso timeStr dateStr now resp providerOk
      = ⟨404, s, 0, false⟩ := by
  unfold handleSmsWhook
  rw [h]

/-- C8 witness: a trigger against the empty state for an unregistered name
answers 404 and changes nothing. -/
theorem unknown_webhook_404_witness :
    handleSmsWhook emptyAppState "unknown-name" [] JSVal.undef
        "2026-10-11T00:00:00Z" "12:00:00" "2026-01-01" 0 none true
      = ⟨404, emptyAppState, 0, false⟩ :=
  unknown_webhook_404 emptyAppState "unknown-name" [] JSVal.undef
    "2026-10-11T00:00:00Z" "12:00:00" "2026-01-01" 0 none true rfl

/-- C7: only the first occurrence of a placeholder token is substituted: the
string-replace primitive the renderer uses rewrites exactly the leftmost
occurrence of the token and keeps everything after it (later occurrences
included) verbatim, and `formatMessage` on the template `"{time} then {time}"`
substitutes only the first `{time}`, leaving the second verbatim. -/
theorem single_substitution :
    (∀ (a b pat rep : List Char),
      (∀ i, i < a.length → ¬ pat <+: (a ++ pat ++ b).drop i) →
      replaceFirst pat rep (a ++ pat ++ b) = a ++ rep ++ b) ∧
    formatMessage "{time} then {time}".data (buildEventData [] JSVal.undef)
        "12:00:00" "2026-01-01" = "12:00:00 then {time}".data := by
  constructor
  · intro a b pat rep h
    exact replaceFirst_leftmost rep a b h
  · decide

/-- C7 witness: a concrete replace of a twice-occurring token rewrites only
the leftmost occurrence and keeps the second one verbatim. -/
theorem single_substitution_witness :
    replaceFirst "{time}".data "NOON".data
        ("ab ".data ++ "{time}".data ++ " cd {time}".data)
      = "ab ".data ++ "NOON".data ++ " cd {time}".data :=
  single_substitution.1 "ab ".data " cd {time}".data "{time}".data "NOON".data
    (by decide)

/-- C10: `formatMessage` substitutes a placeholder's default whenever the
corresponding event-data field is falsy, not only when it is absent: any falsy
`waitTime` (the number 0 included) renders `{waitTime}` as "N/A", and an
empty-string `callerNumber` renders `{callerNumber}` as "Unknown". -/
theorem formatMessage_falsy_defaults :
    (∀ v : JSVal, isFalsy v = true →
      formatMessage "{waitTime}".data
          (fun k => if k = "waitTime" then v else JSVal.undef) "12:00:00" "2026-01-01"
        = "N/A".data) ∧
    formatMessage "{callerNumber}".data
        (fun k => if k = "callerNumber" then .str "" else JSVal.undef)
        "12:00:00" "2026-01-01"
      = "Unknown".data := by
  constructor
  · intro v hv
    have hrep : jsOr v (JSVal.str "N/A") = JSVal.str "N/A" := by
      simp [jsOr, hv]
    simp only [formatMessage, String.reduceEq, reduceIte]
    rw [hrep]
    decide
  · decide

/-- C10 witness: event data whose waitTime is the number 0 renders
`{waitTime}` as "N/A", not "0". -/
theorem formatMessage_falsy_defaults_witness :
    formatMessage "{waitTime}".data
        (fun k => if k = "waitTime" then JSVal.num 0 else JSVal.undef)
        "12:00:00" "2026-01-01"
      = "N/A".data :=
  formatMessage_falsy_defaults.1 (JSVal.num 0) (by decide)

/-- C1 counterexample: starting from the empty (disjoint) store, the reachable
sequence create "vip", archive "vip", create "vip" leaves the name in both the
active and the archived map — the create handler never consults the archived
map, so disjointness fails. -/
theorem create_archived_breaks_disjointness :
    DisjointMaps emptyStore ∧ ¬ DisjointMaps (runOps emptyStore opsC1) := by
  constructor
  · intro k
    exact Or.inl rfl
  · intro h
    have hv := h "vip"
    revert hv
    decide

/-- C1 amended: update, archive and restore preserve active/archived
disjointness unconditionally; create preserves it only when the created name
is not currently archived, and import only when the imported objects avoid
names present in (or imported into) the opposite map. -/
theorem disjointness_preservation (s : Store) (hs : DisjointMaps s) :
    (∀ n p, DisjointMaps (applyOp s (.update n p))) ∧
    (∀ ts n, DisjointMaps (applyOp s (.archive ts n))) ∧
    (∀ n, DisjointMaps (applyOp s (.restore n))) ∧
    (∀ n c, s.archived n = none → DisjointMaps (applyOp s (.create n c))) ∧
    (∀ ws arch,
      (∀ k, lookupOpt ws k ≠ none → lookupOpt arch k = none ∧ s.archived k = none) →
      (∀ k, lookupOpt arch k ≠ none → s.active k = none) →
      DisjointMaps (applyOp s (.dataImport ws arch))) := by
  refine ⟨?_, ?_, ?_, ?_, ?_⟩
  · intro n p k
    simp only [applyOp, updateWebhook]
    cases hn : s.active n with
    | none => exact hs k
    | some c =>
      by_cases hk : k = n
      · subst hk
        rcases hs k with h | h
        · rw [hn] at h; cases h
        · exact Or.inr h
      · simpa [hk] using hs k
  · intro ts n k
    simp only [applyOp, archiveWebhook]
    cases hn : s.active n with
    | none => exact hs k
    | some c =>
      by_cases hk : k = n
      · subst hk
        simp
      · simpa [hk] using hs k
  · intro n k
    simp only [applyOp, restoreWebhook]
    cases hn : s.archived n with
    | none => exact hs k
    | some c =>
      by_cases hk : k = n
      · subst hk
        simp
      · simpa [hk] using hs k
  · intro n c hn k
    simp only [applyOp, createWebhook]
    by_cases hk : k = n
    · subst hk
      exact Or.inr hn
    · simpa [hk] using hs k
  · intro ws arch h1 h2 k
    simp only [applyOp, importData]
    rw [mergeImport_eq, mergeImport_eq]
    rcases hw : lookupOpt ws k with _ | v
    · rcases ha : lookupOpt arch k with _ | w
      · show s.active k = none ∨ s.archived k = none
        exact hs k
      · show s.active k = none ∨ some w = none
        exact Or.inl (h2 k (by simp [ha]))
    · have hww := h1 k (by simp [hw])
      rw [hww.1]
      show some v = none ∨ s.archived k = none
      exact Or.inr hww.2

/-- C1 witness: archiving on the empty store preserves disjointness. -/
theorem disjointness_preservation_witness :
    DisjointMaps (applyOp emptyStore (.archive "2025-01-01T00:00:00Z" "vip")) :=
  (disjointness_preservation emptyStore (fun _ => Or.inl rfl)).2.1
    "2025-01-01T00:00:00Z" "vip"

/-- C2 counterexample: in src/unnamed/part_000 an append to a 100-entry
changelog leaves 101 entries in the in-memory sequence served by
`GET /api/changelog` — only the persisted copy is truncated. -/
theorem changelog_memory_exceeds_100 :
    ¬ ((addToChangelog (List.replicate 100 entryT) "t" "a" "n" []).1.length ≤ 100) := by
  simp [addToChangelog]

/-- C2 amended: in `src/app.js` the in-memory changelog is capped at 100 after
every append, and an append to a 100-entry sequence drops exactly the oldest
entry while preserving the order of the remaining entries; in
src/unnamed/part_000 the in-memory sequence just grows by the appended entry
and only the persisted sequence is truncated to the most recent 100. -/
theorem changelog_truncation_spec :
    (∀ (log : List ChangelogEntry) (ts a n : String) (d : List (String × JSVal)),
      log.length ≤ 100 → (addToChangelogV2 log ts a n d).length ≤ 100) ∧
    (∀ (log : List ChangelogEntry) (ts a n : String) (d : List (String × JSVal)),
      log.length = 100 →
      addToChangelogV2 log ts a n d = log.drop 1 ++ [⟨ts, a, n, d, APP_VERSION_V2⟩]) ∧
    (∀ (log : List ChangelogEntry) (ts a n : String) (d : List (String × JSVal)),
      (addToChangelog log ts a n d).1 = log ++ [⟨ts, a, n, d, APP_VERSION⟩] ∧
      (addToChangelog log ts a n d).2 = lastN 100 (addToChangelog log ts a n d).1 ∧
      (addToChangelog log ts a n d).2.length ≤ 100) := by
  refine ⟨?_, ?_, ?_⟩
  · intro log ts a n d h
    simp only [addToChangelogV2, lastN]
    split
    · simp only [List.length_drop]
      omega
    · simp only [List.length_append, List.length_singleton] at *
      omega
  · intro log ts a n d h
    have hlen : (log ++ [(⟨ts, a, n, d, APP_VERSION_V2⟩ : ChangelogEntry)]).length = 101 := by
      simp [h]
    simp only [addToChangelogV2, lastN]
    rw [if_pos (by omega), hlen]
    have h1 : (101 : Nat) - 100 = 1 := by norm_num
    rw [h1, List.drop_append_of_le_length (by omega)]
  · intro log ts a n d
    refine ⟨rfl, rfl, ?_⟩
    simp only [addToChangelog, lastN, List.length_drop]
    omega

/-- C2 witness: appending to a concrete 100-entry changelog in the app.js
variant drops the oldest entry and keeps the rest in order. -/
theorem changelog_truncation_spec_witness :
    addToChangelogV2 (List.replicate 100 entryT) "t" "a" "n" []
      = (List.replicate 100 entryT).drop 1 ++ [⟨"t", "a", "n", [], APP_VERSION_V2⟩] :=
  changelog_truncation_spec.2.1 (List.replicate 100 entryT) "t" "a" "n" []
    (by simp)

/-- C3 counterexample: a payload carrying a present-but-empty `callerNumber`
together with a non-empty `caller` resolves `callerNumber` to the empty
payload value, not to the caller value — the raw-body spread overrides the
alias resolution. -/
theorem payload_overrides_alias :
    buildEventData bodyC3 JSVal.undef "callerNumber" = .str "" ∧
    ¬ (buildEventData bodyC3 JSVal.undef "callerNumber" = .str "+15551234567") := by
  exact ⟨by decide, by decide⟩

/-- C3 amended: the raw payload takes priority over the alias resolutions,
because the body spread comes last in the event-data object literal: any key
present in the body — falsy values included — keeps the body's value, and the
alias chains apply only to keys absent from the body (an absent `callerNumber`
resolves to `caller` else `from`; an absent `extension` to `extensionNumber`
else `to`). -/
theorem eventData_alias_resolution (body : List (String × JSVal)) (q : JSVal) :
    (∀ v, lookupA body "callerNumber" = some v →
      buildEventData body q "callerNumber" = v) ∧
    (lookupA body "callerNumber" = none →
      buildEventData body q "callerNumber"
        = jsOr (getProp body "caller") (getProp body "from")) ∧
    (∀ v, lookupA body "extension" = some v →
      buildEventData body q "extension" = v) ∧
    (lookupA body "extension" = none →
      buildEventData body q "extension"
        = jsOr (getProp body "extensionNumber") (getProp body "to")) := by
  refine ⟨?_, ?_, ?_, ?_⟩
  · intro v h
    simp only [buildEventData]
    rw [h]
  · intro h
    simp only [buildEventData]
    rw [h]
    simp [getProp, h, jsOr, isFalsy]
  · intro v h
    simp only [buildEventData]
    rw [h]
  · intro h
    simp only [buildEventData]
    rw [h]
    simp [getProp, h, jsOr, isFalsy]

/-- C3 witness: with `callerNumber` absent from the payload, it resolves to
`caller` else `from` (here the caller value). -/
theorem eventData_alias_resolution_witness :
    buildEventData [("caller", JSVal.str "+15551234567")] JSVal.undef "callerNumber"
      = jsOr (getProp [("caller", JSVal.str "+15551234567")] "caller")
          (getProp [("caller", JSVal.str "+15551234567")] "from") :=
  (eventData_alias_resolution [("caller", JSVal.str "+15551234567")] JSVal.undef).2.1
    (by decide)

/-- C4 counterexample: `sendSMS` with recipients parsing to the empty list and
an empty token cache fails with the no-recipients error but still performs a
token exchange first — the claim that no token acquisition occurs is false. -/
theorem empty_recipients_still_exchanges :
    (sendSMS "msg".data "" ⟨none, none⟩ 0 (some ⟨some "tok", some 3600⟩) true).outcome
        = .noRecipients ∧
    ¬ ((sendSMS "msg".data "" ⟨none, none⟩ 0
          (some ⟨some "tok", some 3600⟩) true).exchanges = 0) := by
  exact ⟨by decide, by decide⟩

/-- C4 amended: when the parsed recipient list is empty and the token exchange
succeeds, `sendSMS` fails with the no-recipients error and attempts no
provider send, but token acquisition comes first: the call leaves the cache as
`getAccessToken` left it and performs one exchange when the cache is invalid
(zero when a valid cached token exists). -/
theorem sendSMS_empty_recipients (m : List Char) (r : String) (st : TokenState)
    (now : Int) (resp : TokenResponse) (p : Bool)
    (h : parsePhoneNumbers r = []) :
    (sendSMS m r st now (some resp) p).outcome = .noRecipients ∧
    (sendSMS m r st now (some resp) p).sendAttempted = false ∧
    (sendSMS m r st now (some resp) p).token
        = (getAccessToken st now (some resp)).state ∧
    (sendSMS m r st now (some resp) p).exchanges
        = (if cacheValid st now then 0 else 1) := by
  by_cases hc : cacheValid st now
  · simp [sendSMS, getAccessToken, hc, h]
  · simp [sendSMS, getAccessToken, hc, h]

/-- C4 witness: a concrete empty-recipients send on an empty cache fails with
the no-recipients error after one exchange. -/
theorem sendSMS_empty_recipients_witness :
    (sendSMS "m".data "" ⟨none, none⟩ 0 (some ⟨some "t", some 3600⟩) true).outcome
        = .noRecipients ∧
    (sendSMS "m".data "" ⟨none, none⟩ 0 (some ⟨some "t", some 3600⟩) true).sendAttempted
        = false ∧
    (sendSMS "m".data "" ⟨none, none⟩ 0 (some ⟨some "t", some 3600⟩) true).token
        = (getAccessToken ⟨none, none⟩ 0 (some ⟨some "t", some 3600⟩)).state ∧
    (sendSMS "m".data "" ⟨none, none⟩ 0 (some ⟨some "t", some 3600⟩) true).exchanges
        = (if cacheValid ⟨none, none⟩ 0 then 0 else 1) :=
  sendSMS_empty_recipients "m".data "" ⟨none, none⟩ 0 ⟨some "t", some 3600⟩ true rfl

end GotoSms
